import Mathlib

/-!
Shallow embedding of the `Switch` / `SwitchThumb` toggle-switch component
(`src/primitives/src/switch.rs`) and proofs of its specified behaviour.

The component is a pure render function plus two event handlers.  The
`use_controlled` helper it calls lives elsewhere in the crate and is modelled
from the specification of its contract (optional externally owned boolean
cell, default boolean, change callback ↦ readable current boolean + setter).
Callback invocations are tracked explicitly as the list of boolean values the
`on_checked_change` callback was called with.
-/

/-- A generic passthrough attribute: a name/value pair forwarded verbatim
onto a rendered element. -/
structure Attribute where
  name : String
  value : String
deriving DecidableEq, Repr

/-- The props of `Switch` (struct `SwitchProps` in the source), with the
defaults declared there: `checked` is the optional controlled signal (its
current boolean value), `default_checked` defaults to `false`, `disabled`
and `required` default to `false`, `name` defaults to the empty string,
`value` defaults to `"on"`.  `children` is kept abstract as a string. -/
structure SwitchProps where
  checked : Option Bool := none
  default_checked : Bool := false
  disabled : Bool := false
  required : Bool := false
  name : String := ""
  value : String := "on"
  attributes : List Attribute := []
  children : String := ""
deriving DecidableEq, Repr

/-- Modelled from the spec: the state owned by the `use_controlled` helper
(`crate::use_controlled`, whose source is not part of this file set).
`external` is the current value of the externally owned boolean cell when one
was supplied (controlled mode); `internal` is the internally owned cell,
seeded once from the default at creation. -/
structure ControlledState where
  external : Option Bool
  internal : Bool
deriving DecidableEq, Repr

/-- Modelled from the spec: `use_controlled` creation — the internal cell is
seeded once from the default; the external cell, if any, is the supplied
controlled signal. -/
def use_controlled_init (checked : Option Bool) (default_checked : Bool) :
    ControlledState :=
  { external := checked, internal := default_checked }

/-- Modelled from the spec: the readable current boolean returned by
`use_controlled` — the external cell's value when externally owned, the
internal cell's value otherwise. -/
def use_controlled_read (st : ControlledState) : Bool :=
  match st.external with
  | some v => v
  | none => st.internal

/-- Modelled from the spec: the setter returned by `use_controlled`.
If the state is externally owned it only invokes the change callback; if
internally owned it mutates the internal cell and invokes the callback.
The second component is the list of values the callback was invoked with. -/
def use_controlled_set (st : ControlledState) (v : Bool) :
    ControlledState × List Bool :=
  match st.external with
  | some _ => (st, [v])
  | none => ({ st with internal := v }, [v])

/-- The rendered interactive `button` element of `Switch`, one field per
attribute written in the `rsx!` block, plus the registered event handlers
(by name), the forwarded passthrough attributes and the children. -/
structure RenderedButton where
  tag : String
  button_type : String
  role : String
  value : String
  aria_checked : Bool
  aria_required : Bool
  disabled : Bool
  data_state : String
  data_disabled : String
  handlers : List String
  attributes : List Attribute
  children : String
deriving DecidableEq, Repr

/-- The hidden native checkbox `input` element rendered alongside the button
for form submission, one field per attribute written in the `rsx!` block. -/
structure RenderedInput where
  tag : String
  input_type : String
  aria_hidden : Bool
  tabindex : Int
  name : String
  value : String
  checked : Bool
  disabled : Bool
  style : String
deriving DecidableEq, Repr

/-- The `Switch` component's render function: reads the current checked value
through `use_controlled` and emits the interactive button together with the
hidden checkbox, exactly as in the `rsx!` block of the source. -/
def Switch (props : SwitchProps) (st : ControlledState) :
    RenderedButton × RenderedInput :=
  let checked := use_controlled_read st
  ({ tag := "button"
     button_type := "button"
     role := "switch"
     value := props.value
     aria_checked := checked
     aria_required := props.required
     disabled := props.disabled
     data_state := if checked then "checked" else "unchecked"
     data_disabled := if props.disabled then "true" else "false"
     handlers := ["onclick", "onkeydown"]
     attributes := props.attributes
     children := props.children },
   { tag := "input"
     input_type := "checkbox"
     aria_hidden := true
     tabindex := -1
     name := props.name
     value := props.value
     checked := checked
     disabled := props.disabled
     style := "transform: translateX(-100%); position: absolute; pointer-events: none; opacity: 0; margin: 0; width: 0; height: 0;" })

/-- The `onclick` handler of `Switch`: computes the negation of the checked
value read at click time and passes it to the `use_controlled` setter.
Returns the resulting state and the callback invocations. -/
def Switch.onclick (st : ControlledState) : ControlledState × List Bool :=
  let new_checked := ! use_controlled_read st
  use_controlled_set st new_checked

/-- Keyboard keys as discriminated by the `onkeydown` handler: the source
compares the event key against `Key::Enter` only, so every other key is
represented by `Space` or `Other`. -/
inductive Key where
  | Enter
  | Space
  | Other (key : String)
deriving DecidableEq, Repr

/-- The `onkeydown` handler of `Switch`: calls `prevent_default` exactly when
the key is Enter, and never touches the state.  The first component is the
(unchanged) state, the second records whether `prevent_default` was called. -/
def Switch.onkeydown (st : ControlledState) (key : Key) :
    ControlledState × Bool :=
  if key = Key.Enter then (st, true) else (st, false)

/-- Modelled from the spec: the host toolkit's native button semantics — a
button carrying the native `disabled` attribute receives no click events, so
the component's `onclick` handler only runs when the rendered button is not
disabled.  Returns the resulting state and the callback invocations. -/
def dispatchClick (props : SwitchProps) (st : ControlledState) :
    ControlledState × List Bool :=
  if props.disabled then (st, [])
  else Switch.onclick st

/-- The props of `SwitchThumb` (struct `SwitchThumbProps` in the source):
only the extended passthrough attributes. -/
structure SwitchThumbProps where
  attributes : List Attribute := []
deriving DecidableEq, Repr

/-- A rendered `span` element: tag, attributes, registered event handlers
(by name) and child text nodes. -/
structure RenderedSpan where
  tag : String
  attributes : List Attribute
  handlers : List String
  children : List String
deriving DecidableEq, Repr

/-- The `SwitchThumb` component's render function: a single `span` carrying
the forwarded passthrough attributes and nothing else. -/
def SwitchThumb (props : SwitchThumbProps) : RenderedSpan :=
  { tag := "span", attributes := props.attributes, handlers := [], children := [] }

/-- Claim C1: for every current checked value, a pointer click invokes the
state setter — and hence the change callback — with exactly the negation of
the checked value read at click time. -/
theorem click_invokes_setter_with_negation (st : ControlledState) :
    (Switch.onclick st).2 = [! use_controlled_read st] := by
  unfold Switch.onclick use_controlled_set
  cases st.external <;> rfl

/-- Claim C2: in every rendered output of `Switch`, the `data-state`
attribute is one of the two literals `"checked"`/`"unchecked"` and equals
`"checked"` exactly when the hidden checkbox's `checked` attribute is true;
the same holds after any single click is dispatched. -/
theorem data_state_matches_hidden_checkbox (props : SwitchProps)
    (st : ControlledState) :
    ((Switch props st).1.data_state = "checked" ∨
      (Switch props st).1.data_state = "unchecked") ∧
    ((Switch props st).1.data_state = "checked" ↔
      (Switch props st).2.checked = true) ∧
    ((Switch props (dispatchClick props st).1).1.data_state = "checked" ∨
      (Switch props (dispatchClick props st).1).1.data_state = "unchecked") ∧
    ((Switch props (dispatchClick props st).1).1.data_state = "checked" ↔
      (Switch props (dispatchClick props st).1).2.checked = true) := by
  obtain ⟨ext, intl⟩ := st
  cases ext <;> cases intl <;> cases hd : props.disabled <;>
    simp [Switch, dispatchClick, Switch.onclick, use_controlled_read,
      use_controlled_set, hd]

/-- Claim C3: for every uncontrolled `Switch` (no external checked signal),
rendering from the freshly created state with `default_checked = true` yields
`data-state="checked"` and `aria-checked=true`, and with
`default_checked = false` yields `data-state="unchecked"` and
`aria-checked=false`. -/
theorem uncontrolled_default_render (props : SwitchProps)
    (h : props.checked = none) :
    (props.default_checked = true →
      (Switch props
        (use_controlled_init props.checked props.default_checked)).1.data_state
        = "checked" ∧
      (Switch props
        (use_controlled_init props.checked props.default_checked)).1.aria_checked
        = true) ∧
    (props.default_checked = false →
      (Switch props
        (use_controlled_init props.checked props.default_checked)).1.data_state
        = "unchecked" ∧
      (Switch props
        (use_controlled_init props.checked props.default_checked)).1.aria_checked
        = false) := by
  cases hd : props.default_checked <;>
    simp [Switch, use_controlled_init, use_controlled_read, h, hd]

/-- Witness for C3: the theorem applied to concrete uncontrolled props with
`default_checked = true`. -/
theorem uncontrolled_default_render_witness :
    (Switch { checked := none, default_checked := true }
      (use_controlled_init none true)).1.data_state = "checked" := by
  have h := uncontrolled_default_render
    { checked := none, default_checked := true } rfl
  exact (h.1 rfl).1

/-- Claim C4: for every keydown delivered to the control, the handler leaves
the checked state untouched, and it calls `prevent_default` exactly when the
key is Enter — keys other than Enter are not cancelled. -/
theorem enter_key_prevented_state_unchanged (st : ControlledState) (key : Key) :
    (Switch.onkeydown st key).1 = st ∧
    ((Switch.onkeydown st key).2 = true ↔ key = Key.Enter) := by
  unfold Switch.onkeydown
  by_cases h : key = Key.Enter <;> simp [h]

/-- Claim C5: when the `disabled` prop reads true, the rendered control
carries `data-disabled="true"` and the native `disabled` attribute (on both
the button and the hidden checkbox), and dispatching a click or a keydown
neither changes the checked state nor invokes `on_checked_change`. -/
theorem disabled_blocks_activation (props : SwitchProps) (st : ControlledState)
    (key : Key) (h : props.disabled = true) :
    (Switch props st).1.data_disabled = "true" ∧
    (Switch props st).1.disabled = true ∧
    (Switch props st).2.disabled = true ∧
    (dispatchClick props st).1 = st ∧
    (dispatchClick props st).2 = [] ∧
    (Switch.onkeydown st key).1 = st := by
  refine ⟨by simp [Switch, h], by simp [Switch, h], by simp [Switch, h],
    by simp [dispatchClick, h], by simp [dispatchClick, h], ?_⟩
  unfold Switch.onkeydown
  by_cases hk : key = Key.Enter <;> simp [hk]

/-- Witness for C5: the theorem applied to concrete disabled props, an
unchecked uncontrolled state and the Space key. -/
theorem disabled_blocks_activation_witness :
    (dispatchClick { disabled := true }
      { external := none, internal := false }).2 = [] := by
  have h := disabled_blocks_activation { disabled := true }
    { external := none, internal := false } Key.Space rfl
  exact h.2.2.2.2.1

/-- Claim C6: in controlled mode the click handler invokes
`on_checked_change` with the inverted external value while mutating no state
of its own, the rendered `data-state` is determined by the externally owned
value, and updating the external cell updates `data-state` to match. -/
theorem controlled_click_routes_through_callback (props : SwitchProps)
    (st : ControlledState) (v : Bool) (h : st.external = some v) :
    (Switch.onclick st).2 = [! v] ∧
    (Switch.onclick st).1 = st ∧
    (Switch props st).1.data_state = (if v then "checked" else "unchecked") ∧
    (∀ w : Bool, (Switch props { st with external := some w }).1.data_state =
      (if w then "checked" else "unchecked")) := by
  refine ⟨?_, ?_, ?_, ?_⟩
  · unfold Switch.onclick use_controlled_set use_controlled_read
    rw [h]
  · unfold Switch.onclick use_controlled_set
    rw [h]
  · simp [Switch, use_controlled_read, h]
  · intro w
    simp [Switch, use_controlled_read]

/-- Witness for C6: the theorem applied to a concrete controlled state whose
external value is true — the click notifies the callback with `false`. -/
theorem controlled_click_routes_through_callback_witness :
    (Switch.onclick { external := some true, internal := false }).2 = [false] := by
  have h := controlled_click_routes_through_callback {}
    { external := some true, internal := false } true rfl
  simpa using h.1

/-- Claim C7: the hidden checkbox always carries exactly the configured
`name` and `value` props, independent of the checked state, and the `value`
prop defaults to `"on"`. -/
theorem hidden_input_carries_name_value (props : SwitchProps)
    (st st' : ControlledState) :
    (Switch props st).2.name = props.name ∧
    (Switch props st).2.value = props.value ∧
    (Switch props st).2.name = (Switch props st').2.name ∧
    (Switch props st).2.value = (Switch props st').2.value ∧
    ({} : SwitchProps).value = "on" ∧
    ({} : SwitchProps).name = "" := by
  exact ⟨rfl, rfl, rfl, rfl, rfl, rfl⟩

/-- Claim C8: `SwitchThumb` renders a single `span` carrying exactly the
given passthrough attributes and nothing else: no event handlers, no
children, and its output depends only on the attributes given. -/
theorem thumb_pure_passthrough (props : SwitchThumbProps) :
    SwitchThumb props =
      { tag := "span", attributes := props.attributes, handlers := [],
        children := [] } := by
  rfl

/-- Claim C9: in uncontrolled mode, clicking twice from any state restores
the original state — the click toggle is an involution. -/
theorem uncontrolled_click_involution (st : ControlledState)
    (h : st.external = none) :
    (Switch.onclick (Switch.onclick st).1).1 = st := by
  obtain ⟨ext, intl⟩ := st
  simp only at h
  subst h
  simp [Switch.onclick, use_controlled_read, use_controlled_set]

/-- Witness for C9: the theorem applied to a concrete unchecked uncontrolled
state. -/
theorem uncontrolled_click_involution_witness :
    (Switch.onclick
      (Switch.onclick { external := none, internal := false }).1).1 =
      { external := none, internal := false } :=
  uncontrolled_click_involution { external := none, internal := false } rfl

/-- Claim C10: `data-disabled` is rendered in every state — it is the literal
`"true"` exactly when the `disabled` prop reads true and the literal
`"false"` exactly otherwise, so its presence alone does not indicate
disablement. -/
theorem data_disabled_always_rendered (props : SwitchProps)
    (st : ControlledState) :
    ((Switch props st).1.data_disabled = "true" ∨
      (Switch props st).1.data_disabled = "false") ∧
    ((Switch props st).1.data_disabled = "true" ↔ props.disabled = true) ∧
    ((Switch props st).1.data_disabled = "false" ↔ props.disabled = false) := by
  cases h : props.disabled <;> simp [Switch, h]
